import Mathlib

/-!
# Verification of the Darwin MIDI capture client (leandrodaf/midi)

Shallow embedding of `internal/midi/mididarwin` (the `//go:build darwin`
variant of the client, the one using `sync.Once` in `Stop`) together with the
contract types from `sdk/contracts`.

Modelling conventions:

* Go `byte` values are `Nat` (no arithmetic beyond equality occurs on them in
  the source, so no wrap-around modelling is needed).
* A Go channel of `contracts.MIDI` is modelled by its buffer (`List MIDI`)
  and capacity; a non-blocking `select { case ch <- e: default: }` appends
  when the buffer has room and otherwise takes the `default` branch.  The
  unbuffered dummy channel stored by `Stop` has capacity 0 and no receiver,
  so every try-send on it takes the `default` branch.
* `m.eventChannel` (an `atomic.Value`) holds either Go `nil`, the
  caller-supplied channel, or the dummy channel made in `Stop`; the `Sink`
  type records which one is installed.
* The CoreMIDI native bridge is abstracted to its success path:
  `coremidi.AllSources()` returns `deviceCount` sources, and
  `NewInputPort`/`Connect` succeed, producing a fresh connection identifier
  (`nextConn`).  Ghost fields record every `Disconnect()` call
  (`disconnected`) and every execution of the `stopOnce.Do` body
  (`stopBodyRuns`); they are write-only bookkeeping and never influence
  control flow.
* Only the warning/error log calls relevant to the verified properties are
  modelled (`LogMsg`); info-level progress logs are elided.
* `m.wg.Wait()` (the quiescence barrier) and the mutex are not representable
  in this sequential embedding; operations are modelled as the atomic steps
  the lock makes them.
-/

/-- `contracts.MIDI`: a decoded MIDI event value. -/
structure MIDI where
  timestamp : Nat
  command : Nat
  note : Nat
  velocity : Nat
deriving DecidableEq, Repr

/-- Errors returned by the client (`ErrInvalidMIDIDevice` etc. in the source). -/
inductive Err where
  | invalidDevice
  | noMIDIDevices
deriving DecidableEq, Repr

/-- The warning/error log messages emitted on the paths the claims talk about. -/
inductive LogMsg where
  /-- `"eventChannel not initialized or of invalid type"` in `handleMIDIMessage`. -/
  | channelNotInitialized
  /-- `ErrIncompleteMIDIPacket.Error()` in `handleMIDIMessage`. -/
  | incompleteMessage
  /-- `"Event buffer full; dropping MIDI event"` in `handleMIDIMessage`. -/
  | bufferFull
  /-- `"StartCapture called with nil eventChannel"` in `StartCapture`. -/
  | nilEventChannel
  /-- `"Capture already started; attempting to stop existing capture"` in `StartCapture`. -/
  | captureAlreadyStarted
deriving DecidableEq, Repr

/-- Which channel the `atomic.Value` field `eventChannel` currently holds:
Go `nil` (initial), the caller-supplied capture channel, or the fresh
unbuffered dummy channel stored by `Stop`. -/
inductive Sink where
  | nilChan
  | callerChan
  | dummyChan
deriving DecidableEq, Repr

/-- State of a `ClientMid` (the Darwin client) plus the observable parts of
its environment: the caller channel's buffer and the ghost history of native
disconnects and `stopOnce` body runs. -/
structure ClientMid where
  /-- Number of sources `coremidi.AllSources()` reports (success-path abstraction). -/
  deviceCount : Nat
  /-- `midiEventFilter`: `none` models a `nil` `*contracts.MIDIEventFilter`,
  `some cmds` a filter whose `Commands` slice holds the bytes `cmds`. -/
  midiEventFilter : Option (List Nat)
  /-- `portConn`: `none` models Go `nil`, `some id` a live connection with ghost id `id`. -/
  portConn : Option Nat
  /-- Ghost: next fresh connection identifier handed out by `Connect`. -/
  nextConn : Nat
  /-- Ghost: ids of connections on which `Disconnect()` has been called, newest first. -/
  disconnected : List Nat
  /-- Which channel `eventChannel` currently stores. -/
  sink : Sink
  /-- Buffer contents of the caller-supplied capture channel. -/
  callerBuf : List MIDI
  /-- Capacity of the caller-supplied capture channel. -/
  callerCap : Nat
  /-- The `capturing` flag. -/
  capturing : Bool
  /-- Whether `stopOnce` has been consumed (its `Do` body will never run again). -/
  stopDone : Bool
  /-- Ghost: how many times the `stopOnce.Do` body has executed. -/
  stopBodyRuns : Nat
deriving DecidableEq, Repr

/-- The state `NewMIDIClient` returns: no port connection, `eventChannel`
unset, not capturing, `stopOnce` unused. -/
def ClientMid.init (deviceCount : Nat) (filter : Option (List Nat)) : ClientMid :=
  { deviceCount := deviceCount
    midiEventFilter := filter
    portConn := none
    nextConn := 0
    disconnected := []
    sink := Sink.nilChan
    callerBuf := []
    callerCap := 0
    capturing := false
    stopDone := false
    stopBodyRuns := 0 }

/-- `portConn.Disconnect(); portConn = nil`, recording the disconnect in the
ghost history.  Applied in the source only under a `portConn != nil` guard;
callers of this helper reproduce that guard via the `match`. -/
def ClientMid.disconnectPort (m : ClientMid) : ClientMid :=
  match m.portConn with
  | some id => { m with portConn := none, disconnected := id :: m.disconnected }
  | none => m

/-- `ClientMid.Stop`: runs the shutdown body at most once (`stopOnce.Do`);
inside the body, only when `capturing` is set does it clear the flag,
disconnect the port, and store the dummy channel.  Always returns `nil`. -/
def ClientMid.stop (m : ClientMid) : ClientMid × Option Err :=
  if m.stopDone then (m, none)
  else
    let m1 := { m with stopDone := true, stopBodyRuns := m.stopBodyRuns + 1 }
    if m1.capturing then
      let m2 := { m1 with capturing := false }
      let m3 := if m2.portConn.isSome then m2.disconnectPort else m2
      ({ m3 with sink := Sink.dummyChan }, none)
    else (m1, none)

/-- `ClientMid.SelectDevice`: bounds-checks the id against the current
enumeration, returns `ErrInvalidMIDIDevice` out of bounds; otherwise
disconnects a live connection, opens the input port, and connects
(success-path abstraction: the connect yields the fresh id `nextConn`). -/
def ClientMid.selectDevice (m : ClientMid) (deviceID : Int) : ClientMid × Option Err :=
  if deviceID < 0 ∨ (m.deviceCount : Int) ≤ deviceID then
    (m, some Err.invalidDevice)
  else
    let m1 := if m.portConn.isSome then m.disconnectPort else m
    ({ m1 with portConn := some m1.nextConn, nextConn := m1.nextConn + 1 }, none)

/-- `ClientMid.StartCapture`: a `nil` channel is rejected with an error log
and no state change; if already capturing, `m.Stop()` runs first; then the
channel is stored and `capturing` set.  `some cap` models a fresh non-nil
caller channel of capacity `cap`. -/
def ClientMid.startCapture (m : ClientMid) (eventChannel : Option Nat) :
    ClientMid × List LogMsg :=
  match eventChannel with
  | none => (m, [LogMsg.nilEventChannel])
  | some cap =>
    let (m1, logs) :=
      if m.capturing then ((m.stop).1, [LogMsg.captureAlreadyStarted]) else (m, [])
    ({ m1 with sink := Sink.callerChan, callerBuf := [], callerCap := cap,
               capturing := true }, logs)

/-- `isCommandAllowed`: linear scan of the filter's `Commands` slice,
comparing the full command byte. -/
def isCommandAllowed (command : Nat) : List Nat → Bool
  | [] => false
  | a :: rest => if command = a then true else isCommandAllowed command rest

/-- The filter decision in `handleMIDIMessage`: the event proceeds unless
`m.midiEventFilter != nil && !isCommandAllowed(event.Command, …)`. -/
def eventAllowed (filter : Option (List Nat)) (command : Nat) : Bool :=
  match filter with
  | none => true
  | some cmds => isCommandAllowed command cmds

/-- `ClientMid.handleMIDIMessage`: the native callback.  Loads the event
channel (warn and return when `nil`); with at least 3 payload bytes, builds
the event from bytes 0/1/2 and the current nanosecond clock, applies the
filter (silent drop), then try-sends: a send on the caller channel succeeds
iff its buffer has room, and a send on the unbuffered receiver-less dummy
channel always takes the `default` branch; a failed send logs the
buffer-full warning.  Short payloads log `ErrIncompleteMIDIPacket`. -/
def ClientMid.handleMIDIMessage (m : ClientMid) (data : List Nat) (now : Nat) :
    ClientMid × List LogMsg :=
  if m.sink = Sink.nilChan then (m, [LogMsg.channelNotInitialized])
  else if 3 ≤ data.length then
    let event : MIDI :=
      { timestamp := now
        command := data.getD 0 0
        note := data.getD 1 0
        velocity := data.getD 2 0 }
    if eventAllowed m.midiEventFilter event.command then
      if m.sink = Sink.callerChan ∧ m.callerBuf.length < m.callerCap then
        ({ m with callerBuf := m.callerBuf ++ [event] }, [])
      else (m, [LogMsg.bufferFull])
    else (m, [])
  else (m, [LogMsg.incompleteMessage])

/-- The operations an owner thread or the native bridge can apply to a session. -/
inductive Op where
  | selectDevice (deviceID : Int)
  | startCapture (eventChannel : Option Nat)
  | stop
  | midiMessage (data : List Nat) (now : Nat)

/-- Apply one operation, keeping only the state. -/
def runOp (m : ClientMid) : Op → ClientMid
  | Op.selectDevice id => (m.selectDevice id).1
  | Op.startCapture ch => (m.startCapture ch).1
  | Op.stop => (m.stop).1
  | Op.midiMessage d n => (m.handleMIDIMessage d n).1

/-- Apply a sequence of operations from the left. -/
def runOps (m : ClientMid) (ops : List Op) : ClientMid :=
  ops.foldl runOp m

/-- States a session can actually be in: produced from a freshly constructed
client by some sequence of operations. -/
def Reachable (m : ClientMid) : Prop :=
  ∃ dc filter ops, m = runOps (ClientMid.init dc filter) ops

/-- A session with a capacity-1 caller channel installed and an empty buffer:
the concrete input of the bounded-sink try-send scenario. -/
def capOneSession : ClientMid :=
  { ClientMid.init 0 none with sink := Sink.callerChan, callerCap := 1 }


/-- Invariants maintained by every operation, including the ghost bookkeeping:
no connection is ever disconnected twice, connection ids are fresh, the
`stopOnce` body has run at most once (and not at all while `stopOnce` is
unconsumed), and the caller channel is installed only while `capturing`. -/
structure SessionInv (m : ClientMid) : Prop where
  nodup : m.disconnected.Nodup
  bound : ∀ j ∈ m.disconnected, j < m.nextConn
  connFresh : ∀ id, m.portConn = some id → id ∉ m.disconnected ∧ id < m.nextConn
  onceZero : m.stopDone = false → m.stopBodyRuns = 0
  onceLe : m.stopBodyRuns ≤ 1
  capSink : m.capturing = false → m.sink ≠ Sink.callerChan

theorem sessionInv_init (dc : Nat) (f : Option (List Nat)) : SessionInv (ClientMid.init dc f) := by
  constructor <;> simp [ClientMid.init]

theorem stop_done (m : ClientMid) (hd : m.stopDone = true) : m.stop = (m, none) := by
  simp [ClientMid.stop, hd]

theorem stop_not_capturing (m : ClientMid) (hd : m.stopDone = false)
    (hc : m.capturing = false) :
    m.stop = ({ m with stopDone := true, stopBodyRuns := m.stopBodyRuns + 1 }, none) := by
  simp [ClientMid.stop, hd, hc]

theorem stop_capturing_noconn (m : ClientMid) (hd : m.stopDone = false)
    (hc : m.capturing = true) (hp : m.portConn = none) :
    m.stop = ({ m with stopDone := true, stopBodyRuns := m.stopBodyRuns + 1,
                       capturing := false, sink := Sink.dummyChan }, none) := by
  simp [ClientMid.stop, hd, hc, hp]

theorem stop_capturing_conn (m : ClientMid) (id : Nat) (hd : m.stopDone = false)
    (hc : m.capturing = true) (hp : m.portConn = some id) :
    m.stop = ({ m with stopDone := true, stopBodyRuns := m.stopBodyRuns + 1,
                       capturing := false, portConn := none,
                       disconnected := id :: m.disconnected,
                       sink := Sink.dummyChan }, none) := by
  simp [ClientMid.stop, hd, hc, hp, ClientMid.disconnectPort]

theorem sessionInv_stop (m : ClientMid) (h : SessionInv m) : SessionInv (m.stop).1 := by
  by_cases hd : m.stopDone = true
  · rw [stop_done m hd]; exact h
  · have hd' : m.stopDone = false := by simpa using hd
    have hz := h.onceZero hd'
    by_cases hc : m.capturing = true
    · rcases hp : m.portConn with _ | id
      · rw [stop_capturing_noconn m hd' hc hp]
        refine ⟨h.nodup, h.bound, ?_, by simp, by simp [hz], by simp⟩
        intro i hi
        simp only [hp] at hi
        cases hi
      · rw [stop_capturing_conn m id hd' hc hp]
        have hf := h.connFresh id hp
        refine ⟨?_, ?_, ?_, ?_, ?_, ?_⟩
        · exact List.nodup_cons.mpr ⟨hf.1, h.nodup⟩
        · intro j hj
          rcases List.mem_cons.mp hj with rfl | hj
          · exact hf.2
          · exact h.bound j hj
        · intro i hi
          simp at hi
        · simp
        · simp [hz]
        · simp
    · have hc' : m.capturing = false := by simpa using hc
      rw [stop_not_capturing m hd' hc']
      refine ⟨h.nodup, h.bound, h.connFresh, by simp, by simp [hz], ?_⟩
      intro _
      exact h.capSink hc'

theorem selectDevice_invalid (m : ClientMid) (id : Int)
    (h : id < 0 ∨ (m.deviceCount : Int) ≤ id) :
    m.selectDevice id = (m, some Err.invalidDevice) := by
  simp [ClientMid.selectDevice, h]

theorem selectDevice_valid_noconn (m : ClientMid) (id : Int) (h0 : 0 ≤ id)
    (hlt : id < (m.deviceCount : Int)) (hp : m.portConn = none) :
    m.selectDevice id =
      ({ m with portConn := some m.nextConn, nextConn := m.nextConn + 1 }, none) := by
  have : ¬(id < 0 ∨ (m.deviceCount : Int) ≤ id) := by omega
  simp [ClientMid.selectDevice, this, hp]

theorem selectDevice_valid_conn (m : ClientMid) (id : Int) (c : Nat) (h0 : 0 ≤ id)
    (hlt : id < (m.deviceCount : Int)) (hp : m.portConn = some c) :
    m.selectDevice id =
      ({ m with portConn := some m.nextConn, nextConn := m.nextConn + 1,
                disconnected := c :: m.disconnected }, none) := by
  have : ¬(id < 0 ∨ (m.deviceCount : Int) ≤ id) := by omega
  simp [ClientMid.selectDevice, this, hp, ClientMid.disconnectPort]

theorem sessionInv_selectDevice (m : ClientMid) (id : Int) (h : SessionInv m) :
    SessionInv (m.selectDevice id).1 := by
  by_cases hv : id < 0 ∨ (m.deviceCount : Int) ≤ id
  · rw [selectDevice_invalid m id hv]; exact h
  · have h0 : 0 ≤ id := by omega
    have hlt : id < (m.deviceCount : Int) := by omega
    rcases hp : m.portConn with _ | c
    · rw [selectDevice_valid_noconn m id h0 hlt hp]
      refine ⟨h.nodup, ?_, ?_, h.onceZero, h.onceLe, h.capSink⟩
      · intro j hj
        exact Nat.lt_succ_of_lt (h.bound j hj)
      · intro i hi
        simp only [Option.some.injEq] at hi
        subst hi
        exact ⟨fun hmem => absurd (h.bound _ hmem) (Nat.lt_irrefl _), Nat.lt_succ_self _⟩
    · rw [selectDevice_valid_conn m id c h0 hlt hp]
      have hf := h.connFresh c hp
      refine ⟨?_, ?_, ?_, h.onceZero, h.onceLe, h.capSink⟩
      · exact List.nodup_cons.mpr ⟨hf.1, h.nodup⟩
      · intro j hj
        rcases List.mem_cons.mp hj with rfl | hj
        · exact Nat.lt_succ_of_lt hf.2
        · exact Nat.lt_succ_of_lt (h.bound j hj)
      · intro i hi
        simp only [Option.some.injEq] at hi
        subst hi
        refine ⟨?_, Nat.lt_succ_self _⟩
        intro hmem
        rcases List.mem_cons.mp hmem with heq | hmem
        · exact absurd (heq ▸ hf.2) (Nat.lt_irrefl _)
        · exact absurd (h.bound _ hmem) (Nat.lt_irrefl _)

theorem startCapture_nil (m : ClientMid) :
    m.startCapture none = (m, [LogMsg.nilEventChannel]) := by
  simp [ClientMid.startCapture]

theorem startCapture_some_idle (m : ClientMid) (cap : Nat) (hc : m.capturing = false) :
    m.startCapture (some cap) =
      ({ m with sink := Sink.callerChan, callerBuf := [], callerCap := cap,
                capturing := true }, []) := by
  simp [ClientMid.startCapture, hc]

theorem startCapture_some_capturing (m : ClientMid) (cap : Nat) (hc : m.capturing = true) :
    m.startCapture (some cap) =
      ({ (m.stop).1 with sink := Sink.callerChan, callerBuf := [], callerCap := cap,
                         capturing := true }, [LogMsg.captureAlreadyStarted]) := by
  simp [ClientMid.startCapture, hc]

theorem sessionInv_startCapture (m : ClientMid) (ch : Option Nat) (h : SessionInv m) :
    SessionInv (m.startCapture ch).1 := by
  rcases ch with _ | cap
  · rw [startCapture_nil m]; exact h
  · by_cases hc : m.capturing = true
    · rw [startCapture_some_capturing m cap hc]
      have h1 := sessionInv_stop m h
      exact ⟨h1.nodup, h1.bound, h1.connFresh, h1.onceZero, h1.onceLe, by simp⟩
    · have hc' : m.capturing = false := by simpa using hc
      rw [startCapture_some_idle m cap hc']
      exact ⟨h.nodup, h.bound, h.connFresh, h.onceZero, h.onceLe, by simp⟩

theorem handleMIDIMessage_nilchan (m : ClientMid) (d : List Nat) (n : Nat)
    (hs : m.sink = Sink.nilChan) :
    m.handleMIDIMessage d n = (m, [LogMsg.channelNotInitialized]) := by
  simp [ClientMid.handleMIDIMessage, hs]

theorem handleMIDIMessage_short (m : ClientMid) (d : List Nat) (n : Nat)
    (hs : m.sink ≠ Sink.nilChan) (hl : d.length < 3) :
    m.handleMIDIMessage d n = (m, [LogMsg.incompleteMessage]) := by
  simp [ClientMid.handleMIDIMessage, hs, Nat.not_le.mpr hl]

theorem handleMIDIMessage_filtered (m : ClientMid) (d : List Nat) (n : Nat)
    (hs : m.sink ≠ Sink.nilChan) (hl : 3 ≤ d.length)
    (hf : eventAllowed m.midiEventFilter (d.getD 0 0) = false) :
    m.handleMIDIMessage d n = (m, []) := by
  simp only [List.getD_eq_getElem?_getD] at hf
  simp [ClientMid.handleMIDIMessage, hs, hl, hf]

theorem handleMIDIMessage_deliver (m : ClientMid) (d : List Nat) (n : Nat)
    (hs : m.sink = Sink.callerChan) (hl : 3 ≤ d.length)
    (hf : eventAllowed m.midiEventFilter (d.getD 0 0) = true)
    (hroom : m.callerBuf.length < m.callerCap) :
    m.handleMIDIMessage d n =
      ({ m with callerBuf := m.callerBuf ++
          [{ timestamp := n, command := d.getD 0 0, note := d.getD 1 0,
             velocity := d.getD 2 0 }] }, []) := by
  simp only [List.getD_eq_getElem?_getD] at hf
  simp [ClientMid.handleMIDIMessage, hs, hl, hf, hroom]

theorem handleMIDIMessage_full (m : ClientMid) (d : List Nat) (n : Nat)
    (hs : m.sink = Sink.callerChan) (hl : 3 ≤ d.length)
    (hf : eventAllowed m.midiEventFilter (d.getD 0 0) = true)
    (hfull : ¬ m.callerBuf.length < m.callerCap) :
    m.handleMIDIMessage d n = (m, [LogMsg.bufferFull]) := by
  simp only [List.getD_eq_getElem?_getD] at hf
  simp [ClientMid.handleMIDIMessage, hs, hl, hf, hfull]

theorem handleMIDIMessage_dummy (m : ClientMid) (d : List Nat) (n : Nat)
    (hs : m.sink = Sink.dummyChan) (hl : 3 ≤ d.length)
    (hf : eventAllowed m.midiEventFilter (d.getD 0 0) = true) :
    m.handleMIDIMessage d n = (m, [LogMsg.bufferFull]) := by
  simp only [List.getD_eq_getElem?_getD] at hf
  simp [ClientMid.handleMIDIMessage, hs, hl, hf]

/-- The native callback either leaves the state unchanged or appends one
decoded event to the caller channel's buffer. -/
theorem handleMIDIMessage_cases (m : ClientMid) (d : List Nat) (n : Nat) :
    (m.handleMIDIMessage d n).1 = m ∨
    (m.handleMIDIMessage d n).1 =
      { m with callerBuf := m.callerBuf ++
          [{ timestamp := n, command := d.getD 0 0, note := d.getD 1 0,
             velocity := d.getD 2 0 }] } := by
  by_cases h1 : m.sink = Sink.nilChan
  · left
    rw [handleMIDIMessage_nilchan m d n h1]
  · by_cases h2 : 3 ≤ d.length
    · by_cases h3 : eventAllowed m.midiEventFilter (d.getD 0 0) = true
      · by_cases hs : m.sink = Sink.callerChan
        · by_cases h4 : m.callerBuf.length < m.callerCap
          · right
            rw [handleMIDIMessage_deliver m d n hs h2 h3 h4]
          · left
            rw [handleMIDIMessage_full m d n hs h2 h3 h4]
        · have hd2 : m.sink = Sink.dummyChan := by
            cases hx : m.sink
            · exact absurd hx h1
            · exact absurd hx hs
            · rfl
          left
          rw [handleMIDIMessage_dummy m d n hd2 h2 h3]
      · left
        rw [handleMIDIMessage_filtered m d n h1 h2 (by simpa using h3)]
    · left
      rw [handleMIDIMessage_short m d n h1 (by omega)]

theorem sessionInv_handleMIDIMessage (m : ClientMid) (d : List Nat) (n : Nat)
    (h : SessionInv m) : SessionInv (m.handleMIDIMessage d n).1 := by
  rcases handleMIDIMessage_cases m d n with he | he <;> rw [he]
  · exact h
  · exact ⟨h.nodup, h.bound, h.connFresh, h.onceZero, h.onceLe, h.capSink⟩

theorem sessionInv_runOp (m : ClientMid) (op : Op) (h : SessionInv m) :
    SessionInv (runOp m op) := by
  cases op with
  | selectDevice id => exact sessionInv_selectDevice m id h
  | startCapture ch => exact sessionInv_startCapture m ch h
  | stop => exact sessionInv_stop m h
  | midiMessage d n => exact sessionInv_handleMIDIMessage m d n h

theorem sessionInv_runOps (s : ClientMid) (ops : List Op) (h : SessionInv s) :
    SessionInv (runOps s ops) := by
  induction ops generalizing s with
  | nil => exact h
  | cons op rest ih => exact ih (runOp s op) (sessionInv_runOp s op h)

/-- Every reachable session state satisfies the invariant. -/
theorem sessionInv_reachable (m : ClientMid) (h : Reachable m) : SessionInv m := by
  obtain ⟨dc, f, ops, rfl⟩ := h
  exact sessionInv_runOps (ClientMid.init dc f) ops (sessionInv_init dc f)

theorem stop_returns_nil (m : ClientMid) : (m.stop).2 = none := by
  by_cases hd : m.stopDone = true
  · rw [stop_done m hd]
  · have hd' : m.stopDone = false := by simpa using hd
    by_cases hc : m.capturing = true
    · rcases hp : m.portConn with _ | id
      · rw [stop_capturing_noconn m hd' hc hp]
      · rw [stop_capturing_conn m id hd' hc hp]
    · rw [stop_not_capturing m hd' (by simpa using hc)]

theorem stop_sets_done (m : ClientMid) : (m.stop).1.stopDone = true := by
  by_cases hd : m.stopDone = true
  · rw [stop_done m hd]
    exact hd
  · have hd' : m.stopDone = false := by simpa using hd
    by_cases hc : m.capturing = true
    · rcases hp : m.portConn with _ | id
      · rw [stop_capturing_noconn m hd' hc hp]
      · rw [stop_capturing_conn m id hd' hc hp]
    · rw [stop_not_capturing m hd' (by simpa using hc)]

theorem isCommandAllowed_eq_true_iff (c : Nat) (l : List Nat) :
    isCommandAllowed c l = true ↔ c ∈ l := by
  induction l with
  | nil => simp [isCommandAllowed]
  | cons a rest ih =>
    by_cases h : c = a <;> simp [isCommandAllowed, h, ih]

/-- Claim C7: `SelectDevice` with a device index outside the current
enumeration bounds (negative or at least the source count) returns
`ErrInvalidMIDIDevice` and leaves the whole session state unchanged. -/
theorem C7_selectDevice_out_of_bounds (m : ClientMid) (deviceID : Int)
    (h : deviceID < 0 ∨ (m.deviceCount : Int) ≤ deviceID) :
    m.selectDevice deviceID = (m, some Err.invalidDevice) :=
  selectDevice_invalid m deviceID h

/-- Claim C7 witness: `id = count` (one past the end) on a two-device session. -/
theorem C7_selectDevice_out_of_bounds_witness :
    ((2 : Int) < 0 ∨ (((ClientMid.init 2 none).deviceCount : Nat) : Int) ≤ 2) ∧
    (ClientMid.init 2 none).selectDevice 2 = (ClientMid.init 2 none, some Err.invalidDevice) :=
  ⟨by decide, C7_selectDevice_out_of_bounds (ClientMid.init 2 none) 2 (by decide)⟩

/-- Claim C8: a callback payload shorter than 3 bytes never enqueues an event
(the state is unchanged), and whenever a channel is installed the
incomplete-message condition is logged. -/
theorem C8_short_payload_incomplete (m : ClientMid) (d : List Nat) (n : Nat)
    (hl : d.length < 3) :
    (m.handleMIDIMessage d n).1 = m ∧
    (m.sink ≠ Sink.nilChan →
      m.handleMIDIMessage d n = (m, [LogMsg.incompleteMessage])) := by
  by_cases hs : m.sink = Sink.nilChan
  · rw [handleMIDIMessage_nilchan m d n hs]
    exact ⟨rfl, fun hns => absurd hs hns⟩
  · rw [handleMIDIMessage_short m d n hs hl]
    exact ⟨rfl, fun _ => rfl⟩

/-- Claim C8 witness: a 1-byte payload on a session with an installed channel. -/
theorem C8_short_payload_incomplete_witness :
    ([5] : List Nat).length < 3 ∧
    (((ClientMid.init 1 none).startCapture (some 4)).1.handleMIDIMessage [5] 7).1 =
      ((ClientMid.init 1 none).startCapture (some 4)).1 ∧
    (((ClientMid.init 1 none).startCapture (some 4)).1.sink ≠ Sink.nilChan →
      ((ClientMid.init 1 none).startCapture (some 4)).1.handleMIDIMessage [5] 7 =
        (((ClientMid.init 1 none).startCapture (some 4)).1, [LogMsg.incompleteMessage])) :=
  ⟨by decide,
   (C8_short_payload_incomplete ((ClientMid.init 1 none).startCapture (some 4)).1 [5] 7
      (by decide)).1,
   (C8_short_payload_incomplete ((ClientMid.init 1 none).startCapture (some 4)).1 [5] 7
      (by decide)).2⟩

/-- Claim C10: `StartCapture` with a nil event channel only logs an error; the
session state is returned untouched (no sink installed, `capturing` unchanged,
no stop of an existing capture). -/
theorem C10_startCapture_nil_channel (m : ClientMid) :
    m.startCapture none = (m, [LogMsg.nilEventChannel]) :=
  startCapture_nil m

/-- Claim C3 counterexample: payload `[0x91, 0x3C, 0x64]` (Note-On on MIDI
channel 1) is delivered with `command = 0x91`, the raw status byte — not
`0x91 & 0xF0 = 0x90` as the claim states: the channel nibble is kept. -/
theorem C3_decode_counterexample :
    ((((ClientMid.init 1 none).startCapture (some 8)).1.handleMIDIMessage
        [145, 60, 100] 7).1.callerBuf =
      [{ timestamp := 7, command := 145, note := 60, velocity := 100 }]) ∧
    (145 : Nat) ≠ 145 &&& 0xF0 := by
  decide

/-- Claim C3 as amended: for a payload of at least 3 bytes that passes the
filter, delivered to an installed caller channel with room, the enqueued event
has `command = rawBytes[0]` (the full status byte, channel nibble included),
`note = rawBytes[1]`, `velocity = rawBytes[2]`, `timestamp = now`. -/
theorem C3_decode_amended (m : ClientMid) (d : List Nat) (n : Nat)
    (hs : m.sink = Sink.callerChan) (hl : 3 ≤ d.length)
    (hf : eventAllowed m.midiEventFilter (d.getD 0 0) = true)
    (hroom : m.callerBuf.length < m.callerCap) :
    (m.handleMIDIMessage d n).1.callerBuf =
      m.callerBuf ++ [{ timestamp := n, command := d.getD 0 0, note := d.getD 1 0,
                        velocity := d.getD 2 0 }] := by
  rw [handleMIDIMessage_deliver m d n hs hl hf hroom]

/-- Claim C3 amended witness: `[0x91, 0x3C, 0x64]` at clock 7 on a fresh capture. -/
theorem C3_decode_amended_witness :
    (((ClientMid.init 1 none).startCapture (some 8)).1.sink = Sink.callerChan ∧
     3 ≤ ([145, 60, 100] : List Nat).length ∧
     eventAllowed ((ClientMid.init 1 none).startCapture (some 8)).1.midiEventFilter
       (([145, 60, 100] : List Nat).getD 0 0) = true ∧
     ((ClientMid.init 1 none).startCapture (some 8)).1.callerBuf.length <
       ((ClientMid.init 1 none).startCapture (some 8)).1.callerCap) ∧
    ((((ClientMid.init 1 none).startCapture (some 8)).1.handleMIDIMessage
        [145, 60, 100] 7).1.callerBuf =
      ((ClientMid.init 1 none).startCapture (some 8)).1.callerBuf ++
        [{ timestamp := 7, command := 145, note := 60, velocity := 100 }]) :=
  ⟨⟨by decide, by decide, by decide, by decide⟩,
   C3_decode_amended ((ClientMid.init 1 none).startCapture (some 8)).1
     [145, 60, 100] 7 (by decide) (by decide) (by decide) (by decide)⟩

/-- Claim C4 counterexample: a present filter with an empty command set allows
nothing (the claim says it allows everything), and two status bytes with the
same command nibble but different channel nibbles are filtered differently
(the claim says the channel nibble never affects the decision). -/
theorem C4_filter_counterexample :
    eventAllowed (some []) 144 = false ∧
    eventAllowed (some [144]) 144 = true ∧
    eventAllowed (some [144]) 145 = false ∧
    (144 : Nat) &&& 0xF0 = 145 &&& 0xF0 := by
  decide

/-- Claim C4 as amended: an absent filter allows every command; a present
filter allows a command iff the full status byte appears in its configured
set — so an empty set blocks every command, and the channel nibble takes part
in the comparison. -/
theorem C4_filter_amended (c : Nat) (cmds : List Nat) :
    eventAllowed none c = true ∧
    (eventAllowed (some cmds) c = true ↔ c ∈ cmds) :=
  ⟨rfl, isCommandAllowed_eq_true_iff c cmds⟩

/-- Claim C5 counterexample: on a freshly constructed session (Idle, no device
selected, `portConn = nil`), `StartCapture` with a valid sink installs the
sink and sets `capturing` — it does not refuse with a no-device-selected
condition, and it logs nothing. -/
theorem C5_startCapture_idle_counterexample :
    (ClientMid.init 1 none).portConn = none ∧
    (ClientMid.init 1 none).capturing = false ∧
    (ClientMid.init 1 none).startCapture (some 4) =
      ({ ClientMid.init 1 none with sink := Sink.callerChan, callerCap := 4,
                                    capturing := true }, []) := by
  decide

/-- Claim C5 as amended: `StartCapture` performs no device-selection check.
From any non-capturing state — in particular the Idle state with no device
selected — a non-nil sink is installed, `capturing` is set, no device handle
is touched, and nothing is logged; the only reported error of `StartCapture`
is a nil sink. -/
theorem C5_startCapture_amended (m : ClientMid) (cap : Nat)
    (hc : m.capturing = false) :
    m.startCapture (some cap) =
      ({ m with sink := Sink.callerChan, callerBuf := [], callerCap := cap,
                capturing := true }, []) :=
  startCapture_some_idle m cap hc

/-- Claim C5 amended witness: the Idle fresh session. -/
theorem C5_startCapture_amended_witness :
    (ClientMid.init 1 none).capturing = false ∧
    (ClientMid.init 1 none).startCapture (some 4) =
      ({ ClientMid.init 1 none with sink := Sink.callerChan, callerBuf := [],
                                    callerCap := 4, capturing := true }, []) :=
  ⟨by decide, C5_startCapture_amended (ClientMid.init 1 none) 4 (by decide)⟩

/-- Claim C1: once a reachable session is stopped (`stopOnce` consumed, capture
torn down), a native-callback invocation never writes an event to the caller's
channel: the installed channel is then nil or the receiver-less dummy channel,
so every try-send falls to the dropping `default` branch. -/
theorem C1_no_delivery_after_stop (m : ClientMid) (d : List Nat) (n : Nat)
    (hr : Reachable m) (_hd : m.stopDone = true) (hc : m.capturing = false) :
    (m.handleMIDIMessage d n).1.callerBuf = m.callerBuf := by
  have hinv := sessionInv_reachable m hr
  have hs : m.sink ≠ Sink.callerChan := hinv.capSink hc
  rcases hx : m.sink with _ | _ | _
  · rw [handleMIDIMessage_nilchan m d n hx]
  · exact absurd hx hs
  · by_cases h2 : 3 ≤ d.length
    · by_cases h3 : eventAllowed m.midiEventFilter (d.getD 0 0) = true
      · rw [handleMIDIMessage_dummy m d n hx h2 h3]
      · rw [handleMIDIMessage_filtered m d n (by simp [hx]) h2 (by simpa using h3)]
    · rw [handleMIDIMessage_short m d n (by simp [hx]) (by omega)]

/-- Claim C1 witness: select, capture, stop, then a Note-On callback — nothing
reaches the caller's channel. -/
theorem C1_no_delivery_after_stop_witness :
    Reachable (runOps (ClientMid.init 1 none)
      [Op.selectDevice 0, Op.startCapture (some 4), Op.stop]) ∧
    (runOps (ClientMid.init 1 none)
      [Op.selectDevice 0, Op.startCapture (some 4), Op.stop]).stopDone = true ∧
    (runOps (ClientMid.init 1 none)
      [Op.selectDevice 0, Op.startCapture (some 4), Op.stop]).capturing = false ∧
    ((runOps (ClientMid.init 1 none)
        [Op.selectDevice 0, Op.startCapture (some 4), Op.stop]).handleMIDIMessage
      [144, 60, 100] 9).1.callerBuf =
      (runOps (ClientMid.init 1 none)
        [Op.selectDevice 0, Op.startCapture (some 4), Op.stop]).callerBuf :=
  ⟨⟨1, none, [Op.selectDevice 0, Op.startCapture (some 4), Op.stop], rfl⟩,
   by decide, by decide,
   C1_no_delivery_after_stop
     (runOps (ClientMid.init 1 none)
       [Op.selectDevice 0, Op.startCapture (some 4), Op.stop])
     [144, 60, 100] 9
     ⟨1, none, [Op.selectDevice 0, Op.startCapture (some 4), Op.stop], rfl⟩
     (by decide) (by decide)⟩

/-- Claim C2: on every reachable session, `Stop` returns success, a repeat call
is a no-op that also returns success, the `stopOnce` body has executed at most
once after it, and no port connection has ever been disconnected twice (the
ghost disconnect history stays duplicate-free). -/
theorem C2_stop_idempotent (m : ClientMid) (hr : Reachable m) :
    (m.stop).2 = none ∧
    ((m.stop).1).stop = ((m.stop).1, none) ∧
    (m.stop).1.stopBodyRuns ≤ 1 ∧
    (m.stop).1.disconnected.Nodup := by
  have hinv := sessionInv_stop m (sessionInv_reachable m hr)
  exact ⟨stop_returns_nil m, stop_done _ (stop_sets_done m), hinv.onceLe, hinv.nodup⟩

/-- Claim C2 witness: a session that selected a device and started capture. -/
theorem C2_stop_idempotent_witness :
    Reachable (runOps (ClientMid.init 1 none)
      [Op.selectDevice 0, Op.startCapture (some 4)]) ∧
    ((runOps (ClientMid.init 1 none)
        [Op.selectDevice 0, Op.startCapture (some 4)]).stop).2 = none ∧
    (((runOps (ClientMid.init 1 none)
        [Op.selectDevice 0, Op.startCapture (some 4)]).stop).1).stop =
      (((runOps (ClientMid.init 1 none)
        [Op.selectDevice 0, Op.startCapture (some 4)]).stop).1, none) ∧
    ((runOps (ClientMid.init 1 none)
        [Op.selectDevice 0, Op.startCapture (some 4)]).stop).1.stopBodyRuns ≤ 1 ∧
    ((runOps (ClientMid.init 1 none)
        [Op.selectDevice 0, Op.startCapture (some 4)]).stop).1.disconnected.Nodup :=
  ⟨⟨1, none, [Op.selectDevice 0, Op.startCapture (some 4)], rfl⟩,
   C2_stop_idempotent
     (runOps (ClientMid.init 1 none) [Op.selectDevice 0, Op.startCapture (some 4)])
     ⟨1, none, [Op.selectDevice 0, Op.startCapture (some 4)], rfl⟩⟩

/-- Claim C6 counterexample: after `SelectDevice` succeeds (state
DeviceSelected, not capturing), `Stop` returns with the port connection still
live — the handle is neither disconnected nor null, contradicting the claim
that `Stop` from any non-terminal state nulls the handle. -/
theorem C6_handle_invariant_counterexample :
    (((ClientMid.init 1 none).selectDevice 0).1.portConn = some 0 ∧
     ((ClientMid.init 1 none).selectDevice 0).1.capturing = false ∧
     ((ClientMid.init 1 none).selectDevice 0).1.stopDone = false) ∧
    ((((ClientMid.init 1 none).selectDevice 0).1.stop).1.stopDone = true ∧
     (((ClientMid.init 1 none).selectDevice 0).1.stop).1.portConn = some 0) := by
  decide

/-- Claim C6 as amended: `Stop` disconnects and nulls the port connection
exactly when it runs its shutdown body from a capturing state; called while
not capturing it leaves the handle untouched, so a handle can survive `Stop`
(and `capturing` can also hold with a null handle, since `StartCapture` never
requires a device). -/
theorem C6_stop_handle_amended (m : ClientMid) :
    (m.stopDone = false → m.capturing = true → (m.stop).1.portConn = none) ∧
    (m.capturing = false → (m.stop).1.portConn = m.portConn) := by
  constructor
  · intro hd hc
    rcases hp : m.portConn with _ | id
    · rw [stop_capturing_noconn m hd hc hp]
      exact hp
    · rw [stop_capturing_conn m id hd hc hp]
  · intro hc
    by_cases hd : m.stopDone = true
    · rw [stop_done m hd]
    · rw [stop_not_capturing m (by simpa using hd) hc]

/-- Claim C6 amended witness: a capturing session is disconnected by `Stop`; a
merely device-selected session keeps its handle across `Stop`. -/
theorem C6_stop_handle_amended_witness :
    ((runOps (ClientMid.init 1 none)
        [Op.selectDevice 0, Op.startCapture (some 4)]).stopDone = false ∧
     (runOps (ClientMid.init 1 none)
        [Op.selectDevice 0, Op.startCapture (some 4)]).capturing = true ∧
     ((runOps (ClientMid.init 1 none)
        [Op.selectDevice 0, Op.startCapture (some 4)]).stop).1.portConn = none) ∧
    (((ClientMid.init 1 none).selectDevice 0).1.capturing = false ∧
     ((((ClientMid.init 1 none).selectDevice 0).1).stop).1.portConn =
       ((ClientMid.init 1 none).selectDevice 0).1.portConn) :=
  ⟨⟨by decide, by decide,
    (C6_stop_handle_amended (runOps (ClientMid.init 1 none)
        [Op.selectDevice 0, Op.startCapture (some 4)])).1 (by decide) (by decide)⟩,
   ⟨by decide,
    (C6_stop_handle_amended ((ClientMid.init 1 none).selectDevice 0).1).2 (by decide)⟩⟩

/-- Claim C9: the send to the output sink is a non-blocking try-send.  On a
caller channel of capacity 1 with an empty buffer, two filter-passing events
delivered back-to-back without draining leave exactly the first event in the
buffer; the first callback logs nothing and the second logs the buffer-full
drop, both returning (the callback is a total function of the state). -/
theorem C9_try_send_capacity_one (m : ClientMid) (d1 d2 : List Nat) (n1 n2 : Nat)
    (hs : m.sink = Sink.callerChan) (hcap : m.callerCap = 1) (hbuf : m.callerBuf = [])
    (hl1 : 3 ≤ d1.length) (hl2 : 3 ≤ d2.length)
    (hf1 : eventAllowed m.midiEventFilter (d1.getD 0 0) = true)
    (hf2 : eventAllowed m.midiEventFilter (d2.getD 0 0) = true) :
    (m.handleMIDIMessage d1 n1).1.callerBuf =
      [{ timestamp := n1, command := d1.getD 0 0, note := d1.getD 1 0,
         velocity := d1.getD 2 0 }] ∧
    (m.handleMIDIMessage d1 n1).2 = [] ∧
    ((m.handleMIDIMessage d1 n1).1.handleMIDIMessage d2 n2).1 =
      (m.handleMIDIMessage d1 n1).1 ∧
    ((m.handleMIDIMessage d1 n1).1.handleMIDIMessage d2 n2).2 =
      [LogMsg.bufferFull] := by
  have hroom : m.callerBuf.length < m.callerCap := by simp [hbuf, hcap]
  have he1 := handleMIDIMessage_deliver m d1 n1 hs hl1 hf1 hroom
  have h1buf : (m.handleMIDIMessage d1 n1).1.callerBuf =
      [{ timestamp := n1, command := d1.getD 0 0, note := d1.getD 1 0,
         velocity := d1.getD 2 0 }] := by
    rw [he1]
    simp [hbuf]
  have h1sink : (m.handleMIDIMessage d1 n1).1.sink = Sink.callerChan := by
    rw [he1]
    exact hs
  have h1cap : (m.handleMIDIMessage d1 n1).1.callerCap = 1 := by
    rw [he1]
    exact hcap
  have h1filter : (m.handleMIDIMessage d1 n1).1.midiEventFilter = m.midiEventFilter := by
    rw [he1]
  have hfull : ¬ (m.handleMIDIMessage d1 n1).1.callerBuf.length <
      (m.handleMIDIMessage d1 n1).1.callerCap := by
    rw [h1buf, h1cap]
    simp
  have he2 := handleMIDIMessage_full (m.handleMIDIMessage d1 n1).1 d2 n2 h1sink hl2
    (by rw [h1filter]; exact hf2) hfull
  exact ⟨h1buf, by rw [he1], by rw [he2], by rw [he2]⟩

/-- Claim C9 witness: capacity-1 channel, Note-On then Note-Off, no draining. -/
theorem C9_try_send_capacity_one_witness :
    (capOneSession.sink = Sink.callerChan ∧
      capOneSession.callerCap = 1 ∧
      capOneSession.callerBuf = [] ∧
      3 ≤ ([144, 60, 100] : List Nat).length ∧ 3 ≤ ([128, 60, 0] : List Nat).length) ∧
    (capOneSession.handleMIDIMessage [144, 60, 100] 5).1.callerBuf =
      [{ timestamp := 5, command := 144, note := 60, velocity := 100 }] ∧
    (capOneSession.handleMIDIMessage [144, 60, 100] 5).2 = [] ∧
    ((capOneSession.handleMIDIMessage [144, 60, 100] 5).1.handleMIDIMessage
      [128, 60, 0] 6).1 = (capOneSession.handleMIDIMessage [144, 60, 100] 5).1 ∧
    ((capOneSession.handleMIDIMessage [144, 60, 100] 5).1.handleMIDIMessage
      [128, 60, 0] 6).2 = [LogMsg.bufferFull] :=
  ⟨⟨by decide, by decide, by decide, by decide, by decide⟩,
   C9_try_send_capacity_one capOneSession [144, 60, 100] [128, 60, 0] 5 6
     (by decide) (by decide) (by decide) (by decide) (by decide) (by decide) (by decide)⟩
